import Mathlib

/-!
Verification of the clinical-care pipeline (Clinical-care-ADK).

This file is a shallow embedding of the repository's deterministic logic:
the keyword heuristics and mock-data tools of `tools/clinical_tools.py`,
the red-flag check of `agents/triage_agent.py`, the safety gate of
`agents/treatment_agent.py`, the monitoring-state tracker of
`agents/followup_agent.py`, and the staged workflow of `orchestrator.py`.

Modelling conventions:
  * Python strings are Lean `String`s; `str.lower()` is `pyLower`
    (character-wise `Char.toLower`, which agrees with Python on ASCII);
    the Python substring test `needle in hay` is `strIn needle hay`.
  * Timestamps are integers counted in days (`timedelta(days = d)` is `+ d`);
    the formatted timestamp strings used inside identifiers are carried as an
    opaque `String` field of the environment.
  * Python floats are modelled as exact rationals (`ℚ`).
  * The external collaborators (the hosted LLM agent runtime and the BioGPT
    generator) are oracles in the `Env` record: `run`/`generate` never raise
    towards the orchestrator (exceptions are swallowed into the returned
    string by `_execute_agent`), so they are total `String → String`
    functions keyed by the agent being run.
  * Python dicts with a fixed key set are structures; a key that is present
    but may hold `None` is an `Option` field; heterogeneous warning/alert
    dicts are inductive types with one constructor per shape.
-/

namespace Clinical

/-- Character-wise lowercasing, the embedding of Python `str.lower()` on the
ASCII strings this repository matches against. -/
def pyLower (s : String) : String := ⟨s.data.map Char.toLower⟩

/-- Whether the first list is a prefix of the second (over characters). -/
def charPre : List Char → List Char → Bool
  | [], _ => true
  | _ :: _, [] => false
  | a :: as, b :: bs => a == b && charPre as bs

/-- Whether `needle` occurs as a contiguous run inside `hay`. -/
def charSub (needle : List Char) : List Char → Bool
  | [] => needle.isEmpty
  | b :: bs => charPre needle (b :: bs) || charSub needle bs

/-- The Python substring test `needle in hay` on strings. -/
def strIn (needle hay : String) : Bool := charSub needle.toList hay.toList

/-! ## `agents/triage_agent.py`: check_red_flags -/

/-- The fixed danger-phrase list of `check_red_flags`. -/
def red_flags_list : List String :=
  ["chest pain", "chest pressure", "difficulty breathing",
   "shortness of breath", "severe bleeding", "unconscious",
   "loss of consciousness", "confusion", "stroke",
   "face drooping", "arm weakness", "speech difficulty",
   "severe allergic", "anaphylaxis", "suicidal", "self-harm",
   "severe trauma", "not breathing", "no pulse"]

/-- The dict returned by `check_red_flags`: `recommended_urgency` is the key
that holds `1` when flags were found and `None` otherwise. -/
structure RedFlagResult where
  has_red_flags : Bool
  red_flags_found : List String
  recommended_urgency : Option Nat
deriving DecidableEq

/-- Embedding of `check_red_flags` (triage_agent.py, lines 160-183). -/
def check_red_flags (symptoms : String) : RedFlagResult :=
  let symptoms_lower := pyLower symptoms
  let found_flags := red_flags_list.filter (fun flag => strIn flag symptoms_lower)
  { has_red_flags := decide (0 < found_flags.length)
    red_flags_found := found_flags
    recommended_urgency := if found_flags.isEmpty then none else some 1 }

/-! ## `tools/clinical_tools.py`: assess_symptoms -/

/-- The `high` keyword list of the `urgency_keywords` dict. -/
def high_keywords : List String :=
  ["chest pain", "difficulty breathing", "severe", "unconscious", "bleeding heavily"]

/-- The `medium` keyword list of the `urgency_keywords` dict. -/
def medium_keywords : List String :=
  ["fever", "pain", "vomiting", "dizziness", "weakness"]

/-- The `low` keyword list of the `urgency_keywords` dict. -/
def low_keywords : List String :=
  ["mild", "minor", "slight", "occasional"]

/-- The `urgency_keywords` dict of `assess_symptoms`, in its (insertion)
iteration order. -/
def urgency_keywords : List (String × List String) :=
  [("high", high_keywords), ("medium", medium_keywords), ("low", low_keywords)]

/-- The `urgency_mapping` dict of `assess_symptoms`. -/
def urgency_mapping : List (String × Nat) :=
  [("high", 1), ("medium", 3), ("low", 5)]

/-- The patient-context sub-dict returned inside the assessment. -/
structure PatientContext where
  age : Option Int
  gender : Option String
  history : Option String
deriving DecidableEq

/-- The `assessment` sub-dict of `assess_symptoms`. -/
structure Assessment where
  symptoms_analyzed : String
  urgency_level : Nat
  urgency_description : String
  patient_context : PatientContext
  recommendation : String
deriving DecidableEq

/-- The dict returned by `assess_symptoms`. -/
structure AssessResult where
  status : String
  assessment : Assessment
deriving DecidableEq

/-- Embedding of `assess_symptoms` (clinical_tools.py, lines 29-84): the loop
over `urgency_keywords.items()` with `break` keeps the first category, in the
dict's iteration order, one of whose keywords occurs in the lowered symptoms;
when none matches the default `"medium"` stands.  `urgency_mapping[urgency]`
is a total lookup here because `urgency` is always one of the three keys. -/
def assess_symptoms (symptoms : String) (patient_age : Option Int)
    (patient_gender : Option String) (medical_history : Option String) : AssessResult :=
  let symptoms_lower := pyLower symptoms
  let urgency :=
    (((urgency_keywords.find? (fun lk => lk.2.any (fun kw => strIn kw symptoms_lower))).map
      Prod.fst).getD "medium")
  { status := "success"
    assessment :=
      { symptoms_analyzed := symptoms
        urgency_level := (urgency_mapping.lookup urgency).getD 0
        urgency_description := urgency
        patient_context := { age := patient_age, gender := patient_gender,
                             history := medical_history }
        recommendation := "Patient requires " ++
          (if urgency == "high" then "immediate" else "standard") ++ " evaluation" } }

/-! ## `tools/clinical_tools.py`: check_drug_interactions -/

/-- The fixed `known_interactions` table. -/
def known_interactions : List ((String × String) × String) :=
  [(("warfarin", "aspirin"), "Increased bleeding risk"),
   (("metformin", "contrast dye"), "Risk of lactic acidosis"),
   (("lisinopril", "potassium"), "Risk of hyperkalemia")]

/-- A warning dict appended by `check_drug_interactions`: the interaction
shape carries `drugs`/`warning`/`severity`, the allergy shape
`drug`/`allergen`/`severity`. -/
inductive Warning where
  | interaction (drugs : List String) (warning : String) (severity : String)
  | allergy (drug : String) (allergen : String) (severity : String)
deriving DecidableEq

/-- The `severity` key common to both warning shapes. -/
def Warning.severity : Warning → String
  | .interaction _ _ s => s
  | .allergy _ _ s => s

/-- The dict returned by `check_drug_interactions`. -/
structure InteractionResult where
  status : String
  safe_to_prescribe : Bool
  warnings : List Warning
  medications_checked : List String
deriving DecidableEq

/-- The space-joined lowered combined medication list against which the
interaction table is matched (`' '.join(all_meds)`). -/
def joined_meds (proposed current : List String) : String :=
  String.intercalate " " ((proposed ++ current).map pyLower)

/-- Embedding of `check_drug_interactions` (clinical_tools.py, lines
135-192): interaction warnings (severity `"moderate"`) are appended first,
in table order, whenever both drug names occur in the space-joined combined
medication string; allergy warnings (severity `"high"`) follow, one for each
proposed medication whose lowered name contains a lowered allergy;
`safe_to_prescribe` is the emptiness of the high-severity sublist. -/
def check_drug_interactions (proposed_medications current_medications allergies :
    List String) : InteractionResult :=
  let joined := joined_meds proposed_medications current_medications
  let interaction_warnings := known_interactions.filterMap (fun pw =>
    if strIn pw.1.1 joined && strIn pw.1.2 joined then
      some (Warning.interaction [pw.1.1, pw.1.2] pw.2 "moderate")
    else none)
  let allergy_warnings := proposed_medications.flatMap (fun med =>
    allergies.filterMap (fun allergy =>
      if strIn (pyLower allergy) (pyLower med) then
        some (Warning.allergy med allergy "high")
      else none))
  let warnings := interaction_warnings ++ allergy_warnings
  { status := "success"
    safe_to_prescribe :=
      decide ((warnings.filter (fun w => w.severity == "high")).length = 0)
    warnings := warnings
    medications_checked := proposed_medications }

/-! ## `tools/clinical_tools.py`: schedule_appointment -/

/-- The `urgency_days` dict of `schedule_appointment`. -/
def urgency_days : List (String × Int) :=
  [("emergency", 0), ("urgent", 1), ("routine", 7)]

/-- The `instructions` dict of `get_appointment_instructions`. -/
def appointment_instructions : List (String × String) :=
  [("follow_up", "Please bring your current medication list and any questions."),
   ("specialist", "Bring referral paperwork and relevant medical records."),
   ("lab", "Fast for 8-12 hours before your appointment. Water is OK."),
   ("imaging", "Wear comfortable clothing without metal. Arrive 15 minutes early.")]

/-- Embedding of `get_appointment_instructions` (clinical_tools.py, lines
249-257): an unknown appointment type falls back to a generic line. -/
def get_appointment_instructions (appointment_type : String) : String :=
  (appointment_instructions.lookup appointment_type).getD
    "Please arrive 15 minutes early."

/-- The `appointment` sub-dict of `schedule_appointment`. -/
structure ScheduledAppointment where
  confirmation_number : String
  patient_id : String
  appointment_type : String
  datetime : Int
  location : String
  provider : String
  instructions : String
deriving DecidableEq

/-- The dict returned by `schedule_appointment`. -/
structure ScheduleResult where
  status : String
  appointment : ScheduledAppointment
deriving DecidableEq

/-- Embedding of `schedule_appointment` (clinical_tools.py, lines 195-246).
`preferred_date` is `some d` when a parseable ISO date was supplied; an
absent or unparseable date (Python catches the `ValueError`) falls back to
`now + days_out`.  Every path returns `status = "success"`: no appointment
type is ever rejected. -/
def schedule_appointment (patient_id appointment_type : String)
    (preferred_date : Option Int) (urgency : String) (now : Int)
    (ts : String) : ScheduleResult :=
  let days_out := (urgency_days.lookup urgency).getD 7
  let apt_date := match preferred_date with
    | some d => d
    | none => now + days_out
  { status := "success"
    appointment :=
      { confirmation_number := "APT-" ++ patient_id ++ "-" ++ ts
        patient_id := patient_id
        appointment_type := appointment_type
        datetime := apt_date
        location := "Main Clinic - Room 101"
        provider := "Dr. Available"
        instructions := get_appointment_instructions appointment_type } }

/-! ## `agents/treatment_agent.py`: run_safety_checks -/

/-- The `patient_info` dict `_run_treatment` hands to `run_safety_checks`:
`allergies`, `current_medications` and `age` drawn from the merged input.
The `pregnant` key is absent there, so its falsy default is `false`. -/
structure PatientInfo where
  allergies : List String
  current_medications : List String
  age : Int
  pregnant : Bool
deriving DecidableEq

/-- An entry of the `warnings`/`blockers` lists of `run_safety_checks`: an
allergy-conflict blocker dict, a warning dict forwarded from
`check_drug_interactions`, or a special-population note dict. -/
inductive SafetyIssue where
  | allergyConflict (medication : String) (allergen : String) (action : String)
  | drugWarning (w : Warning)
  | note (ntype : String) (message : String)
deriving DecidableEq

/-- The dict returned by `run_safety_checks`. -/
structure SafetyResult where
  passed : Bool
  checks_performed : List String
  warnings : List SafetyIssue
  blockers : List SafetyIssue
deriving DecidableEq

/-- Embedding of `run_safety_checks` (treatment_agent.py, lines 200-265).
Check 1 collects an allergy-conflict blocker for each proposed medication
containing an allergy (case-insensitively) and clears `passed`; check 2
forwards each `check_drug_interactions` warning, high severity into
`blockers` (clearing `passed`), the rest into `warnings`; check 3 appends
special-population notes that never touch `passed`. -/
def run_safety_checks (proposed_medications : List String)
    (patient_data : PatientInfo) : SafetyResult :=
  let allergies := patient_data.allergies
  let current_meds := patient_data.current_medications
  let allergy_blockers := proposed_medications.flatMap (fun med =>
    allergies.filterMap (fun allergy =>
      if strIn (pyLower allergy) (pyLower med) then
        some (SafetyIssue.allergyConflict med allergy "DO NOT PRESCRIBE")
      else none))
  let interaction_result :=
    check_drug_interactions proposed_medications current_meds allergies
  let high_warnings :=
    interaction_result.warnings.filter (fun w => w.severity == "high")
  let other_warnings :=
    interaction_result.warnings.filter (fun w => !(w.severity == "high"))
  let population_warnings :=
    (if patient_data.pregnant then
      [SafetyIssue.note "pregnancy" "Verify all medications are pregnancy-safe"]
     else []) ++
    (if 65 < patient_data.age then
      [SafetyIssue.note "elderly" "Consider dose adjustments for elderly patient"]
     else [])
  { passed := allergy_blockers.isEmpty && high_warnings.isEmpty
    checks_performed := ["allergy_check", "interaction_check", "population_check"]
    warnings := other_warnings.map SafetyIssue.drugWarning ++ population_warnings
    blockers := allergy_blockers ++ high_warnings.map SafetyIssue.drugWarning }

/-! ## `agents/followup_agent.py`: MonitoringState, status assessment, alerts -/

/-- The appointment fields the monitoring check reads from an appointment
dict: its scheduled time (`apt["datetime"]`) and attendance
(`apt.get("attended", True)`). -/
structure Appointment where
  datetime : Int
  attended : Bool
deriving DecidableEq

/-- The `appointment_adherence` sub-dict of a status assessment. -/
structure Adherence where
  attended : Nat
  total : Nat
  rate : ℚ
deriving DecidableEq

/-- The dict returned by `assess_patient_status`. -/
structure PatientStatus where
  appointment_adherence : Adherence
  days_since_contact : Int
  monitoring_status : String
  check_count : Nat
deriving DecidableEq

/-- An alert dict built by `check_alert_conditions`. -/
structure Alert where
  alert_type : String
  severity : String
  message : String
deriving DecidableEq

/-- The `check_result` dict `run_monitoring_check` hands to `record_check`. -/
structure CheckPayload where
  status : PatientStatus
  alerts : List Alert
  outreach_sent : Bool
deriving DecidableEq

/-- An entry of a monitor's `check_history`: the recorded timestamp and the
check result. -/
structure CheckEntry where
  timestamp : Int
  result : CheckPayload
deriving DecidableEq

/-- A per-patient monitor dict as built by `MonitoringState.add_patient`. -/
structure Monitor where
  patient_id : String
  created_at : Int
  status : String
  treatment_reference : Option String
  diagnosis : Option String
  scheduled_appointments : List Appointment
  check_interval_days : Int
  next_check : Int
  check_history : List CheckEntry
  alerts_generated : List Alert
  last_contact : Int
deriving DecidableEq

/-- The `MonitoringState` registry: its `active_monitors` dict as an ordered
association list (Python dict keys are unique; see `keysNodup`). -/
structure MonitoringState where
  active_monitors : List (String × Monitor)
deriving DecidableEq

/-- Uniqueness of the registry's keys, which every Python dict guarantees. -/
abbrev MonitoringState.keysNodup (s : MonitoringState) : Prop :=
  (s.active_monitors.map Prod.fst).Nodup

/-- Embedding of `MonitoringState.add_patient` (followup_agent.py, lines
223-245): builds the monitor dict (`next_check` seven days out) and stores
it under the patient id, replacing any previous monitor in place. -/
def MonitoringState.add_patient (s : MonitoringState) (patient_id : String)
    (treatment_reference diagnosis : Option String)
    (appointments : List Appointment) (now : Int) : Monitor × MonitoringState :=
  let monitor : Monitor :=
    { patient_id := patient_id
      created_at := now
      status := "active"
      treatment_reference := treatment_reference
      diagnosis := diagnosis
      scheduled_appointments := appointments
      check_interval_days := 7
      next_check := now + 7
      check_history := []
      alerts_generated := []
      last_contact := now }
  let monitors :=
    if s.active_monitors.any (fun km => km.1 == patient_id) then
      s.active_monitors.map (fun km =>
        if km.1 == patient_id then (km.1, monitor) else km)
    else s.active_monitors ++ [(patient_id, monitor)]
  (monitor, ⟨monitors⟩)

/-- Embedding of `MonitoringState.get_patient`. -/
def MonitoringState.get_patient (s : MonitoringState) (patient_id : String) :
    Option Monitor :=
  s.active_monitors.lookup patient_id

/-- Embedding of `MonitoringState.get_due_for_check` (followup_agent.py,
lines 262-275): the ids of the monitors whose status is `"active"` and whose
`next_check` has been reached (`now >= next_check`). -/
def MonitoringState.get_due_for_check (s : MonitoringState) (now : Int) :
    List String :=
  (s.active_monitors.filter (fun km =>
    km.2.status == "active" && decide (km.2.next_check ≤ now))).map Prod.fst

/-- The mutation `MonitoringState.record_check` performs on the monitor it
found: append the new history entry, trim the history to its last ten
entries once it exceeds twenty (`check_history[-10:]`), refresh
`last_contact` and push `next_check` one interval out. -/
def recordCheckMonitor (m : Monitor) (check_result : CheckPayload)
    (now : Int) : Monitor :=
  let hist := m.check_history ++ [⟨now, check_result⟩]
  let hist := if 20 < hist.length then hist.drop (hist.length - 10) else hist
  { m with
      check_history := hist
      last_contact := now
      next_check := now + m.check_interval_days }

/-- Embedding of `MonitoringState.record_check` (followup_agent.py, lines
277-303): a no-op for an unknown patient id, otherwise the in-place update
of that patient's monitor. -/
def MonitoringState.record_check (s : MonitoringState) (patient_id : String)
    (check_result : CheckPayload) (now : Int) : MonitoringState :=
  ⟨s.active_monitors.map (fun km =>
    if km.1 == patient_id then (km.1, recordCheckMonitor km.2 check_result now)
    else km)⟩

/-- Embedding of `assess_patient_status` (followup_agent.py, lines 415-442):
adherence over the appointments scheduled strictly in the past, the rate a
true division defaulting to `1.0` on an empty denominator. -/
def assess_patient_status (monitor : Monitor) (now : Int) : PatientStatus :=
  let past_appointments :=
    monitor.scheduled_appointments.filter (fun apt => decide (apt.datetime < now))
  let attended := (past_appointments.filter (fun apt => apt.attended)).length
  let total := past_appointments.length
  { appointment_adherence :=
      { attended := attended
        total := total
        rate := if 0 < total then (attended : ℚ) / total else 1 }
    days_since_contact := now - monitor.last_contact
    monitoring_status := monitor.status
    check_count := monitor.check_history.length }

/-- Embedding of `check_alert_conditions` (followup_agent.py, lines
445-471): the missed-appointments rule first, then the no-contact rule. -/
def check_alert_conditions (monitor : Monitor) (status : PatientStatus) :
    List Alert :=
  let adherence := status.appointment_adherence
  let missed_alerts :=
    if 0 < adherence.total ∧ adherence.rate < 4/5 then
      let missed := adherence.total - adherence.attended
      [{ alert_type := "missed_appointments"
         severity := if missed < 2 then "warning" else "urgent"
         message := "Patient has missed " ++ toString missed ++ " appointment(s)" }]
    else []
  let contact_alerts :=
    if 14 < status.days_since_contact then
      [{ alert_type := "no_contact"
         severity := "warning"
         message := "No patient contact in " ++
           toString status.days_since_contact ++ " days" }]
    else []
  missed_alerts ++ contact_alerts

/-- Embedding of `should_routine_checkin` (followup_agent.py, lines 474-478). -/
def should_routine_checkin (monitor : Monitor) (now : Int) : Bool :=
  decide (monitor.check_interval_days ≤ now - monitor.last_contact)

/-- Embedding of `generate_checkin_message` (followup_agent.py, lines
481-519): `diagnosis` is the value under the context's `diagnosis` key
(rendered "None" when the key holds Python `None`, as the f-string does). -/
def generate_checkin_message (message_type : String) (diagnosis : Option String)
    (alerts : List Alert) : String :=
  if message_type == "initial" then
    "Hello! This is a follow-up from your recent visit. " ++
    "We're checking in to see how you're doing with your treatment for " ++
    (match diagnosis with | some d => d | none => "None") ++
    ". Please let us know if you have any questions or concerns."
  else if message_type == "routine" then
    "Hi! Just checking in to see how you're feeling. " ++
    "Are you taking your medications as prescribed? " ++
    "Any new symptoms or concerns? We're here to help!"
  else if message_type == "concern" then
    if alerts.any (fun a => a.alert_type == "missed_appointments") then
      "We noticed you may have missed a recent appointment. " ++
      "We want to make sure you're doing well. " ++
      "Please call us to reschedule - your health is important to us."
    else
      "We haven't heard from you in a while and want to check in. " ++
      "How are you feeling? Any concerns about your treatment? " ++
      "Please let us know so we can help."
  else "How are you doing today?"

/-! ## `orchestrator.py`: the staged workflow

The orchestrator's external collaborators are collected in `Env`: `agentOut`
stands for `_execute_agent` (which never raises: failures come back as
strings), keyed by the agent's name, and `biogpt` for
`BioGPTWrapper.generate`.  `ts` is the formatted timestamp interpolated into
the generated identifiers and `now` the current time in days. -/

structure Env where
  agentOut : String → String
  biogpt : String → String
  ts : String
  now : Int

/-- The patient record handed to `run_full_workflow` (spec section 6: id,
free-text symptoms, age, gender, history, medications, allergies). -/
structure PatientData where
  patient_id : String
  symptoms : String
  age : Int
  gender : String
  medical_history : List String
  medications : List String
  allergies : List String
deriving DecidableEq

/-- The `urgency_descriptions` dict of `format_triage_result`. -/
def urgency_descriptions : List (Nat × String) :=
  [(1, "IMMEDIATE - Life threatening"),
   (2, "EMERGENCY - Severe condition"),
   (3, "URGENT - Serious but stable"),
   (4, "LESS URGENT - Can wait"),
   (5, "NON-URGENT - Routine care")]

/-- The dict returned by `format_triage_result`: `urgency_level` is an
`Option` because `_run_triage` builds it from the `recommended_urgency`
slot, which holds `None` when no red flag was found (it is then overwritten
with `4` before this record is built, so in the pipeline it is never
`none`). -/
structure TriageResult where
  triage_id : String
  patient_id : String
  chief_complaint : String
  urgency_level : Option Nat
  urgency_description : String
  assessment : String
  red_flags : List String
  notes_for_diagnosis : String
  timestamp : String
  status : String
  next_agent : String
deriving DecidableEq

/-- Embedding of `format_triage_result` (triage_agent.py, lines 186-222). -/
def format_triage_result (ts : String) (patient_id symptoms : String)
    (urgency : Option Nat) (assessment : String) (red_flags : List String)
    (notes : String) : TriageResult :=
  { triage_id := "TRG-" ++ patient_id ++ "-" ++ ts
    patient_id := patient_id
    chief_complaint := symptoms
    urgency_level := urgency
    urgency_description :=
      match urgency with
      | some u => (urgency_descriptions.lookup u).getD "Unknown"
      | none => "Unknown"
    assessment := assessment
    red_flags := red_flags
    notes_for_diagnosis := notes
    timestamp := ts
    status := "completed"
    next_agent := "diagnosis_agent" }

/-- Embedding of `ClinicalCareOrchestrator._run_triage` (orchestrator.py,
lines 262-304).  `red_flags.get("recommended_urgency", 3)` returns the
stored value (the key is always present, holding `1` or `None`); when no
red flag was found the urgency is overwritten with `4`. -/
def run_triage (env : Env) (p : PatientData) : TriageResult :=
  let red_flags := check_red_flags p.symptoms
  let response := env.agentOut "triage"
  let urgency : Option Nat := red_flags.recommended_urgency
  let urgency := if !red_flags.has_red_flags then some 4 else urgency
  format_triage_result env.ts p.patient_id p.symptoms urgency response
    red_flags.red_flags_found ""

/-- The dict built by `build_clinical_picture` when `_run_diagnosis` calls
it on the merged patient-plus-triage input: the triage keys win the merge,
the demographics come from the patient record, and `current_medications`
defaults to `[]` because the merged dict has no key of that name (the
patient record's key is `medications`). -/
structure ClinicalPicture where
  chief_complaint : String
  urgency_level : Option Nat
  triage_assessment : String
  red_flags : List String
  patient_id : String
  demographics_age : Int
  demographics_gender : String
  medical_history : List String
  current_medications : List String
  allergies : List String
deriving DecidableEq

/-- Embedding of `build_clinical_picture` (diagnosis_agent.py, lines
174-203) at the workflow's call site. -/
def build_clinical_picture (p : PatientData) (t : TriageResult) :
    ClinicalPicture :=
  { chief_complaint := t.chief_complaint
    urgency_level := t.urgency_level
    triage_assessment := t.assessment
    red_flags := t.red_flags
    patient_id := t.patient_id
    demographics_age := p.age
    demographics_gender := p.gender
    medical_history := p.medical_history
    current_medications := []
    allergies := p.allergies }

/-- The dict returned by `_run_diagnosis`. -/
structure DiagnosisResult where
  diagnosis_id : String
  patient_id : String
  clinical_picture : ClinicalPicture
  agent_analysis : String
  biogpt_assessment : String
  timestamp : String
deriving DecidableEq

/-- Embedding of `ClinicalCareOrchestrator._run_diagnosis` (orchestrator.py,
lines 306-346): the BioGPT oracle is consulted on the chief complaint and
the diagnosis agent on the assembled prompt. -/
def run_diagnosis (env : Env) (p : PatientData) (t : TriageResult) :
    DiagnosisResult :=
  let clinical_picture := build_clinical_picture p t
  let biogpt_assessment := env.biogpt ("Analyze symptoms: " ++ t.chief_complaint)
  { diagnosis_id := "DX-" ++ p.patient_id ++ "-" ++ env.ts
    patient_id := p.patient_id
    clinical_picture := clinical_picture
    agent_analysis := env.agentOut "diagnosis"
    biogpt_assessment := biogpt_assessment
    timestamp := env.ts }

/-- The dict returned by `_run_treatment`. -/
structure TreatmentResult where
  treatment_id : String
  patient_id : String
  treatment_plan : String
  safety_checks : SafetyResult
  status : String
  timestamp : String
deriving DecidableEq

/-- Embedding of `ClinicalCareOrchestrator._run_treatment` (orchestrator.py,
lines 348-389).  The source hard-codes `proposed_meds = []` (its comment:
"Would extract from diagnosis"), and draws allergies, current medications
and age from the merged input, where they are the patient record's
fields. -/
def run_treatment (env : Env) (p : PatientData) : TreatmentResult :=
  let proposed_meds : List String := []
  let patient_info : PatientInfo :=
    { allergies := p.allergies
      current_medications := p.medications
      age := p.age
      pregnant := false }
  let safety_result := run_safety_checks proposed_meds patient_info
  { treatment_id := "TX-" ++ p.patient_id ++ "-" ++ env.ts
    patient_id := p.patient_id
    treatment_plan := env.agentOut "treatment"
    safety_checks := safety_result
    status := if safety_result.passed then "completed" else "safety_hold"
    timestamp := env.ts }

/-- The aggregate `aggregate_clinical_data` builds at the workflow's call
site (documentation_agent.py, lines 213-273), where all three source
arguments are the one merged dict: keys the orchestrator's stage results
never carry (`primary_diagnosis`, `differential_diagnoses`,
`clinical_reasoning`, `pharmacological_treatment`,
`non_pharmacological_treatment`, `patient_education`,
`confirmed_appointments` of a scheduling result) fall back to their
defaults and are omitted here. -/
structure AggregatedData where
  patient_id : String
  encounter_date : String
  chief_complaint : String
  triage_assessment : String
  urgency_level : Option Nat
  red_flags : List String
  medical_history : List String
  medications : List String
  allergies : List String
deriving DecidableEq

/-- Embedding of `aggregate_clinical_data` at `_run_documentation`'s call
site: the subjective data come from the triage keys of the merged dict, the
history/medication/allergy lists from the clinical picture the diagnosis
stage embedded (whose `current_medications` is `[]`, see
`build_clinical_picture`), and `encounter_date` from the merged `timestamp`
key, which the treatment result overrode last. -/
def aggregate_clinical_data (p : PatientData) (t : TriageResult)
    (d : DiagnosisResult) (tr : TreatmentResult) : AggregatedData :=
  { patient_id := t.patient_id
    encounter_date := tr.timestamp
    chief_complaint := t.chief_complaint
    triage_assessment := t.assessment
    urgency_level := t.urgency_level
    red_flags := t.red_flags
    medical_history := d.clinical_picture.medical_history
    medications := d.clinical_picture.current_medications
    allergies := d.clinical_picture.allergies }

/-- Rendering of an optional urgency as the SOAP note's f-string does
(Python prints `None` for a missing level). -/
def showUrgency : Option Nat → String
  | some u => toString u
  | none => "None"

/-- Embedding of `generate_soap_note` (documentation_agent.py, lines
276-402) on the aggregate above: the sections whose data the workflow never
populates (differential, plan medications, investigations, follow-up,
scheduled appointments) render empty exactly as the source's falsy-guarded
branches skip them. -/
def generate_soap_note (a : AggregatedData) (gen_ts : String) : String :=
  let bar60 := String.mk (List.replicate 60 '=')
  let bar40 := String.mk (List.replicate 40 '-')
  let note : List String :=
    [bar60, "CLINICAL NOTE - SOAP FORMAT", bar60,
     "Patient ID: " ++ a.patient_id,
     "Date: " ++ a.encounter_date,
     "Generated: " ++ gen_ts,
     "",
     "SUBJECTIVE:", bar40,
     "Chief Complaint: " ++ a.chief_complaint,
     "",
     "History of Present Illness:",
     "  " ++ a.triage_assessment,
     ""] ++
    (if a.medical_history.isEmpty then [] else
      ["Past Medical History: " ++ String.intercalate ", " a.medical_history]) ++
    (if a.medications.isEmpty then [] else
      ["Current Medications: " ++ String.intercalate ", " a.medications]) ++
    (if a.allergies.isEmpty then ["Allergies: NKDA (No Known Drug Allergies)"]
     else ["Allergies: " ++ String.intercalate ", " a.allergies]) ++
    ["",
     "OBJECTIVE:", bar40,
     "Triage Urgency Level: " ++ showUrgency a.urgency_level] ++
    (if a.red_flags.isEmpty then ["Red Flags: None identified"]
     else ["Red Flags Identified: " ++ String.intercalate ", " a.red_flags]) ++
    ["",
     "ASSESSMENT:", bar40,
     "Primary Diagnosis: Pending",
     "",
     "PLAN:", bar40,
     "",
     bar60,
     "Status: DRAFT - Requires Physician Review and Attestation",
     "Generated by: Clinical Care AI System",
     bar60]
  String.intercalate "\n" note

/-- The dict returned by `_run_documentation`. -/
structure DocumentationResult where
  document_id : String
  patient_id : String
  soap_note : String
  agent_review : String
  timestamp : String
deriving DecidableEq

/-- Embedding of `ClinicalCareOrchestrator._run_documentation`
(orchestrator.py, lines 391-422). -/
def run_documentation (env : Env) (p : PatientData) (t : TriageResult)
    (d : DiagnosisResult) (tr : TreatmentResult) : DocumentationResult :=
  let aggregated := aggregate_clinical_data p t d tr
  let soap_note := generate_soap_note aggregated env.ts
  { document_id := "DOC-" ++ p.patient_id ++ "-" ++ env.ts
    patient_id := p.patient_id
    soap_note := soap_note
    agent_review := env.agentOut "documentation"
    timestamp := env.ts }

/-- The dict returned by `_run_scheduling`: the source leaves
`confirmed_appointments` empty ("Would be populated by tool calls"). -/
structure SchedulingResult where
  scheduling_id : String
  patient_id : String
  scheduling_summary : String
  confirmed_appointments : List Appointment
  timestamp : String
deriving DecidableEq

/-- Embedding of `ClinicalCareOrchestrator._run_scheduling`
(orchestrator.py, lines 424-451). -/
def run_scheduling (env : Env) (p : PatientData) : SchedulingResult :=
  { scheduling_id := "SCH-" ++ p.patient_id ++ "-" ++ env.ts
    patient_id := p.patient_id
    scheduling_summary := env.agentOut "scheduling"
    confirmed_appointments := []
    timestamp := env.ts }

/-- The `monitor_config` sub-dict of the follow-up result. -/
structure MonitorConfig where
  check_interval_days : Int
  next_check : Int
  appointments_tracked : Nat
deriving DecidableEq

/-- The dict returned by `initialize_monitoring`. -/
structure FollowupResult where
  status : String
  patient_id : String
  monitor_config : MonitorConfig
  initial_message : String
deriving DecidableEq

/-- Embedding of `initialize_monitoring` (followup_agent.py, lines
314-350) as `_setup_followup` calls it: the appointments are the scheduling
result's (always empty) confirmations, the treatment reference the
treatment id, and the `diagnosis_treated` key is absent from the
orchestrator's treatment result, so the stored diagnosis is `none` and the
initial message renders it "None". -/
def initialize_monitoring (state : MonitoringState) (patient_id : String)
    (treatment_result : TreatmentResult) (scheduling_result : SchedulingResult)
    (now : Int) : FollowupResult × MonitoringState :=
  let appointments := scheduling_result.confirmed_appointments
  let added := state.add_patient patient_id (some treatment_result.treatment_id)
    none appointments now
  let initial_message := generate_checkin_message "initial" none []
  ({ status := "monitoring_initialized"
     patient_id := patient_id
     monitor_config :=
       { check_interval_days := added.1.check_interval_days
         next_check := added.1.next_check
         appointments_tracked := appointments.length }
     initial_message := initial_message }, added.2)

/-- The `steps` dict of a workflow result: one optional slot per stage, in
the order the pipeline fills them. -/
structure Steps where
  triage : Option TriageResult
  diagnosis : Option DiagnosisResult
  treatment : Option TreatmentResult
  documentation : Option DocumentationResult
  scheduling : Option SchedulingResult
  followup : Option FollowupResult
deriving DecidableEq

/-- The empty `steps` dict the workflow starts from. -/
def Steps.empty : Steps := ⟨none, none, none, none, none, none⟩

/-- The workflow result dict of `run_full_workflow`. -/
structure WorkflowResult where
  workflow_id : String
  patient_id : String
  started_at : String
  steps : Steps
  status : String
  completed_at : Option String
  duration_seconds : Option Int
  error : Option String
deriving DecidableEq

/-- Embedding of `ClinicalCareOrchestrator.run_full_workflow`
(orchestrator.py, lines 126-256), threading the two pieces of orchestrator
state it touches: the `workflow_history` list and the global monitoring
registry.  The emergency and safety-hold branches `return` from inside the
`try` block, before the `self.workflow_history.append(result)` that stands
after it, so those two paths hand back the history unchanged; only a run
that falls through to the end is appended.  In this embedding every stage
is total (the agent oracles never raise), so the `except` branch that would
set `status = "error"` is unreachable and no further path exists. -/
def run_full_workflow (env : Env) (patient_data : PatientData)
    (history : List WorkflowResult) (monitors : MonitoringState) :
    WorkflowResult × List WorkflowResult × MonitoringState :=
  let base : WorkflowResult :=
    { workflow_id := "WF-" ++ env.ts
      patient_id := patient_data.patient_id
      started_at := env.ts
      steps := Steps.empty
      status := "running"
      completed_at := none
      duration_seconds := none
      error := none }
  let triage_result := run_triage env patient_data
  let with_triage :=
    { base with steps := { base.steps with triage := some triage_result } }
  if triage_result.urgency_level == some 1 then
    ({ with_triage with status := "emergency_escalation" }, history, monitors)
  else
    let diagnosis_result := run_diagnosis env patient_data triage_result
    let with_diagnosis :=
      { with_triage with
          steps := { with_triage.steps with diagnosis := some diagnosis_result } }
    let treatment_result := run_treatment env patient_data
    let with_treatment :=
      { with_diagnosis with
          steps := { with_diagnosis.steps with treatment := some treatment_result } }
    if treatment_result.status == "safety_hold" then
      ({ with_treatment with status := "safety_review_required" }, history, monitors)
    else
      let doc_result :=
        run_documentation env patient_data triage_result diagnosis_result
          treatment_result
      let sched_result := run_scheduling env patient_data
      let with_parallel :=
        { with_treatment with
            steps := { with_treatment.steps with
                         documentation := some doc_result
                         scheduling := some sched_result } }
      let followup := initialize_monitoring monitors patient_data.patient_id
        treatment_result sched_result env.now
      let final :=
        { with_parallel with
            steps := { with_parallel.steps with followup := some followup.1 }
            status := "completed"
            completed_at := some env.ts
            duration_seconds := some (env.now - env.now) }
      (final, history ++ [final], followup.2)

/-! ## Concrete fixtures used by the witnesses and counterexamples -/

/-- A concrete environment: constant collaborator answers, one time point. -/
def demoEnv : Env :=
  { agentOut := fun _ => "AGENT RESPONSE"
    biogpt := fun _ => "BIOGPT ASSESSMENT"
    ts := "20250101120000"
    now := 0 }

/-- The demo script's sample patient (demo.py, lines 52-60): non-urgent
symptoms, a penicillin allergy on file. -/
def routinePatient : PatientData :=
  { patient_id := "P001"
    symptoms := "Persistent headache for 3 days, mild fever, neck stiffness"
    age := 35
    gender := "F"
    medical_history := ["Migraines", "Hypertension"]
    medications := ["Lisinopril 10mg daily"]
    allergies := ["Penicillin"] }

/-- A patient presenting the spec's scenario-A symptoms, which contain the
red-flag phrase "chest pain". -/
def chestPainPatient : PatientData :=
  { patient_id := "P002"
    symptoms := "Severe chest pain radiating to left arm"
    age := 55
    gender := "M"
    medical_history := []
    medications := []
    allergies := [] }

/-- A trivial status assessment used to build concrete check payloads. -/
def dummyStatus : PatientStatus :=
  { appointment_adherence := { attended := 0, total := 0, rate := 1 }
    days_since_contact := 0
    monitoring_status := "active"
    check_count := 0 }

/-- A concrete check payload for witness runs of `record_check`. -/
def dummyPayload : CheckPayload :=
  { status := dummyStatus, alerts := [], outreach_sent := false }

/-- A monitor whose history already holds twenty entries, so that the next
recorded check crosses the trimming threshold. -/
def fullHistoryMonitor : Monitor :=
  { patient_id := "P010"
    created_at := 0
    status := "active"
    treatment_reference := none
    diagnosis := none
    scheduled_appointments := []
    check_interval_days := 7
    next_check := 7
    check_history := (List.range 20).map (fun i => ⟨(i : Int), dummyPayload⟩)
    alerts_generated := []
    last_contact := 0 }

/-- A monitor that is due for a check at time `3`. -/
def dueMonitor : Monitor :=
  { patient_id := "P011"
    created_at := 0
    status := "active"
    treatment_reference := none
    diagnosis := none
    scheduled_appointments := []
    check_interval_days := 7
    next_check := 0
    check_history := []
    alerts_generated := []
    last_contact := 0 }

/-- A one-patient registry holding `dueMonitor`. -/
def dueRegistry : MonitoringState := ⟨[("P011", dueMonitor)]⟩

/-- A monitor with one past appointment that was not attended. -/
def missedApptMonitor : Monitor :=
  { patient_id := "P012"
    created_at := -10
    status := "active"
    treatment_reference := none
    diagnosis := none
    scheduled_appointments := [{ datetime := -1, attended := false }]
    check_interval_days := 7
    next_check := 0
    check_history := []
    alerts_generated := []
    last_contact := 0 }

/-! ## Helper lemmas -/

/-- A symptom string containing some configured red-flag phrase makes
`check_red_flags` report flags. -/
lemma has_red_flags_of_found (s : String)
    (h : ∃ flag ∈ red_flags_list, strIn flag (pyLower s) = true) :
    (check_red_flags s).has_red_flags = true := by
  obtain ⟨f, hf, hs⟩ := h
  have hmem : f ∈ red_flags_list.filter (fun flag => strIn flag (pyLower s)) :=
    List.mem_filter.mpr ⟨hf, hs⟩
  simp only [check_red_flags, decide_eq_true_eq]
  exact List.length_pos.mpr (List.ne_nil_of_mem hmem)

/-- When flags were found, the recommended urgency slot holds `1`. -/
lemma recommended_urgency_of_flags (s : String)
    (h : (check_red_flags s).has_red_flags = true) :
    (check_red_flags s).recommended_urgency = some 1 := by
  simp only [check_red_flags, decide_eq_true_eq] at h ⊢
  rw [if_neg]
  intro hempty
  rw [List.isEmpty_iff] at hempty
  simp [hempty] at h

/-- The triage stage's urgency is `1` exactly on red flags and `4`
otherwise. -/
lemma run_triage_urgency_eq (env : Env) (p : PatientData) :
    (run_triage env p).urgency_level =
      if (check_red_flags p.symptoms).has_red_flags = true then some 1
      else some 4 := by
  by_cases h : (check_red_flags p.symptoms).has_red_flags = true
  · simp only [run_triage, format_triage_result, h, if_true, Bool.not_true,
      Bool.false_eq_true, if_false]
    exact recommended_urgency_of_flags p.symptoms h
  · have hb : (check_red_flags p.symptoms).has_red_flags = false :=
      Bool.eq_false_iff.mpr h
    simp [run_triage, format_triage_result, hb, h]

/-- Lookup in an association list with pairwise distinct keys agrees with
membership. -/
lemma lookup_eq_some_iff_mem {β : Type} {l : List (String × β)}
    (h : (l.map Prod.fst).Nodup) (k : String) (v : β) :
    l.lookup k = some v ↔ (k, v) ∈ l := by
  induction l with
  | nil => simp
  | cons kv t ih =>
    obtain ⟨a, b⟩ := kv
    rw [List.map_cons, List.nodup_cons] at h
    obtain ⟨hk, ht⟩ := h
    rw [List.lookup_cons]
    by_cases hkk : k = a
    · subst hkk
      simp only [beq_self_eq_true]
      constructor
      · intro hl
        injection hl with hbv
        subst hbv
        exact List.mem_cons_self _ _
      · intro hmem
        rcases List.mem_cons.mp hmem with heq | hmemt
        · injection heq with h1 h2
          subst h2
          rfl
        · exact absurd (by simpa using List.mem_map_of_mem Prod.fst hmemt) hk
    · have hbeq : (k == a) = false := beq_eq_false_iff_ne.mpr hkk
      simp only [hbeq]
      rw [ih ht]
      constructor
      · intro hmem
        exact List.mem_cons_of_mem _ hmem
      · intro hmem
        rcases List.mem_cons.mp hmem with heq | hmemt
        · exact absurd (congrArg Prod.fst heq) hkk
        · exact hmemt

/-- Membership of a patient id in the due list, elementwise. -/
lemma mem_get_due_iff (s : MonitoringState) (now : Int) (pid : String) :
    pid ∈ s.get_due_for_check now ↔
      ∃ km ∈ s.active_monitors,
        km.1 = pid ∧ km.2.status = "active" ∧ km.2.next_check ≤ now := by
  simp only [MonitoringState.get_due_for_check, List.mem_map, List.mem_filter,
    Bool.and_eq_true, beq_iff_eq, decide_eq_true_eq]
  constructor
  · rintro ⟨km, ⟨hmem, hs, hn⟩, hfst⟩
    exact ⟨km, hmem, hfst, hs, hn⟩
  · rintro ⟨km, hmem, hfst, hs, hn⟩
    exact ⟨km, ⟨hmem, hs, hn⟩, hfst⟩

/-- What `record_check` leaves as the checked monitor's history. -/
lemma recordCheckMonitor_history (m : Monitor) (cr : CheckPayload) (now : Int) :
    (recordCheckMonitor m cr now).check_history =
      if 20 < (m.check_history ++ [(⟨now, cr⟩ : CheckEntry)]).length then
        (m.check_history ++ [(⟨now, cr⟩ : CheckEntry)]).drop
          ((m.check_history ++ [(⟨now, cr⟩ : CheckEntry)]).length - 10)
      else m.check_history ++ [(⟨now, cr⟩ : CheckEntry)] := rfl

/-- The history bound holds after any single recorded check, whatever the
monitor's prior history was. -/
lemma recordCheckMonitor_length_le (m : Monitor) (cr : CheckPayload) (now : Int) :
    (recordCheckMonitor m cr now).check_history.length ≤ 20 := by
  rw [recordCheckMonitor_history]
  split
  · rename_i h
    simp only [List.length_drop, List.length_append, List.length_cons,
      List.length_nil] at h ⊢
    omega
  · rename_i h
    simp only [List.length_append, List.length_cons, List.length_nil,
      Nat.not_lt] at h ⊢
    omega

/-- C6: after any `recordCheck` the monitor's history holds at most 20
entries; when the append pushes it past 20, exactly the 10 most recent
entries remain — a suffix of the appended history ending in the entry just
appended — and the bound also holds for the patient's entry in the registry
after `MonitoringState.record_check`, whatever the registry held before. -/
theorem record_check_history_bounded (m : Monitor) (cr : CheckPayload) (now : Int) :
    (recordCheckMonitor m cr now).check_history.length ≤ 20
    ∧ (20 < m.check_history.length + 1 →
        (recordCheckMonitor m cr now).check_history.length = 10
        ∧ (recordCheckMonitor m cr now).check_history.getLast? = some ⟨now, cr⟩
        ∧ (recordCheckMonitor m cr now).check_history <:+ m.check_history ++ [⟨now, cr⟩])
    ∧ (∀ (s : MonitoringState) (pid : String) (km : String × Monitor),
        km ∈ (s.record_check pid cr now).active_monitors → km.1 = pid →
        km.2.check_history.length ≤ 20) := by
  refine ⟨recordCheckMonitor_length_le m cr now, fun h => ?_, ?_⟩
  · have hh := recordCheckMonitor_history m cr now
    have hlen : (m.check_history ++ [(⟨now, cr⟩ : CheckEntry)]).length
        = m.check_history.length + 1 := by simp
    rw [hlen, if_pos h] at hh
    refine ⟨?_, ?_, ?_⟩
    · rw [hh, List.length_drop, hlen]
      omega
    · rw [hh, List.drop_append_eq_append_drop]
      have h0 : m.check_history.length + 1 - 10 - m.check_history.length = 0 := by
        omega
      rw [h0, List.drop_zero]
      exact List.getLast?_concat _
    · rw [hh]
      exact List.drop_suffix _ _
  · intro s pid km hmem hfst
    simp only [MonitoringState.record_check] at hmem
    obtain ⟨y, hy, hmap⟩ := List.mem_map.mp hmem
    by_cases hb : (y.1 == pid) = true
    · rw [if_pos hb] at hmap
      rw [← hmap]
      exact recordCheckMonitor_length_le y.2 cr now
    · rw [if_neg hb] at hmap
      rw [← hmap] at hfst
      exact absurd (beq_iff_eq.mpr hfst) hb

/-- C6 witness: recording a check on a monitor whose history already holds
twenty entries trims it to the ten most recent, the new entry last. -/
theorem record_check_history_bounded_witness :
    (recordCheckMonitor fullHistoryMonitor dummyPayload 21).check_history.length = 10
    ∧ (recordCheckMonitor fullHistoryMonitor dummyPayload 21).check_history.getLast?
        = some ⟨21, dummyPayload⟩
    ∧ (recordCheckMonitor fullHistoryMonitor dummyPayload 21).check_history.length ≤ 20 := by
  have h := record_check_history_bounded fullHistoryMonitor dummyPayload 21
  have h2 := h.2.1 (by decide)
  exact ⟨h2.1, h2.2.1, h.1⟩

/-- C7: a patient id is listed as due exactly when its monitor exists, is
active and has reached its next check; and immediately after a recorded
check with a positive interval, the same id is no longer due at the same
time. -/
theorem due_list_characterisation (s : MonitoringState) (hnd : s.keysNodup)
    (now : Int) (pid : String) (cr : CheckPayload) :
    (pid ∈ s.get_due_for_check now ↔
      ∃ m, s.get_patient pid = some m ∧ m.status = "active" ∧ m.next_check ≤ now)
    ∧ (∀ m, s.get_patient pid = some m → 0 < m.check_interval_days →
        pid ∉ (s.record_check pid cr now).get_due_for_check now) := by
  constructor
  · rw [mem_get_due_iff]
    constructor
    · rintro ⟨⟨a, mon⟩, hmem, hfst, hs, hn⟩
      subst hfst
      refine ⟨mon, ?_, hs, hn⟩
      rw [MonitoringState.get_patient, lookup_eq_some_iff_mem hnd]
      exact hmem
    · rintro ⟨m, hlook, hs, hn⟩
      rw [MonitoringState.get_patient, lookup_eq_some_iff_mem hnd] at hlook
      exact ⟨(pid, m), hlook, rfl, hs, hn⟩
  · intro m hlook hpos hin
    rw [mem_get_due_iff] at hin
    obtain ⟨km, hmem, hfst, hs, hn⟩ := hin
    simp only [MonitoringState.record_check] at hmem
    obtain ⟨⟨a, mon⟩, hy, hmap⟩ := List.mem_map.mp hmem
    by_cases hb : (a == pid) = true
    · rw [if_pos hb] at hmap
      obtain rfl := beq_iff_eq.mp hb
      rw [← hmap] at hn
      simp only [recordCheckMonitor] at hn
      have hmon : mon = m := by
        have hlk := (lookup_eq_some_iff_mem hnd a mon).mpr hy
        rw [MonitoringState.get_patient] at hlook
        exact Option.some.inj (hlk.symm.trans hlook)
      rw [hmon] at hn
      omega
    · rw [if_neg hb] at hmap
      rw [← hmap] at hfst
      exact absurd (beq_iff_eq.mpr hfst) hb

/-- C7 witness: in the concrete one-monitor registry the due patient is
listed, and right after its check it is no longer listed at the same time. -/
theorem due_list_characterisation_witness :
    ("P011" ∈ dueRegistry.get_due_for_check 3)
    ∧ ("P011" ∉ (dueRegistry.record_check "P011" dummyPayload 3).get_due_for_check 3) := by
  have h := due_list_characterisation dueRegistry (by decide) 3 "P011" dummyPayload
  refine ⟨h.1.mpr ⟨dueMonitor, by decide, rfl, by decide⟩, h.2 dueMonitor (by decide) (by decide)⟩

/-- C9 counterexample: scheduling an unknown appointment type does not
yield a distinguishing status — the result's status is `"success"`, the
same as for the known type `"lab"`, even though the type is absent from the
instruction table. -/
theorem schedule_unknown_type_counterexample :
    (schedule_appointment "P001" "cardiology_consult" none "routine" 0 "TS").status
      = "success"
    ∧ (schedule_appointment "P001" "lab" none "routine" 0 "TS").status = "success"
    ∧ appointment_instructions.lookup "cardiology_consult" = none := by
  refine ⟨rfl, rfl, by decide⟩

/-- C9 (amended): the scheduler never raises and never reports not-found:
every call returns `status = "success"`, and an appointment type absent
from the instruction table is reflected only in the generic default
preparation instructions. -/
theorem schedule_appointment_always_success (pid atype : String)
    (preferred_date : Option Int) (urgency : String) (now : Int) (ts : String) :
    (schedule_appointment pid atype preferred_date urgency now ts).status = "success"
    ∧ (appointment_instructions.lookup atype = none →
        (schedule_appointment pid atype preferred_date urgency now ts).appointment.instructions
          = "Please arrive 15 minutes early.") := by
  constructor
  · rfl
  · intro h
    simp [schedule_appointment, get_appointment_instructions, h]

/-- C9 witness: the amended statement at the concrete unknown type. -/
theorem schedule_appointment_always_success_witness :
    (schedule_appointment "P001" "cardiology_consult" none "routine" 0 "TS").appointment.instructions
      = "Please arrive 15 minutes early." :=
  (schedule_appointment_always_success "P001" "cardiology_consult" none "routine" 0 "TS").2
    (by decide)

/-- C10: the pipeline's triage stage only ever assigns urgency 1 (exactly
when a red-flag phrase was found) or urgency 4; levels 2, 3 and 5 are
unreachable for every input. -/
theorem triage_urgency_one_or_four (env : Env) (p : PatientData) :
    ((run_triage env p).urgency_level = some 1 ∨ (run_triage env p).urgency_level = some 4)
    ∧ ((run_triage env p).urgency_level = some 1 ↔
        (check_red_flags p.symptoms).has_red_flags = true)
    ∧ (run_triage env p).urgency_level ≠ some 2
    ∧ (run_triage env p).urgency_level ≠ some 3
    ∧ (run_triage env p).urgency_level ≠ some 5 := by
  rw [run_triage_urgency_eq]
  by_cases h : (check_red_flags p.symptoms).has_red_flags = true
  · simp [h]
  · simp [h]

/-- C10 witness: urgency 1 on the chest-pain patient, urgency 4 on the
routine patient. -/
theorem triage_urgency_one_or_four_witness :
    (run_triage demoEnv chestPainPatient).urgency_level = some 1
    ∧ (run_triage demoEnv routinePatient).urgency_level = some 4 := by
  have h := (triage_urgency_one_or_four demoEnv chestPainPatient).2.1.mpr (by decide)
  exact ⟨h, by decide⟩

/-- C3: a symptom string matching no keyword of any category is classified
at the middle tier 3; when the first category (in the dict's iteration
order) with a keyword match is `cat`, the tier is `cat`'s mapping; in
particular, with no danger (`high`) keyword present, a `medium` match wins
over any `low` match and yields tier 3. -/
theorem default_urgency_and_first_match (s : String) (age : Option Int)
    (gender hist : Option String) :
    ((∀ cat ∈ urgency_keywords, ∀ kw ∈ cat.2, strIn kw (pyLower s) = false) →
        (assess_symptoms s age gender hist).assessment.urgency_level = 3)
    ∧ (∀ cat ∈ urgency_keywords,
        urgency_keywords.find?
            (fun lk => lk.2.any (fun kw => strIn kw (pyLower s))) = some cat →
        (assess_symptoms s age gender hist).assessment.urgency_level =
          (urgency_mapping.lookup cat.1).getD 0)
    ∧ ((∀ kw ∈ high_keywords, strIn kw (pyLower s) = false) →
       (∃ kw ∈ medium_keywords, strIn kw (pyLower s) = true) →
        (assess_symptoms s age gender hist).assessment.urgency_level = 3) := by
  refine ⟨?_, ?_, ?_⟩
  · intro hnone
    have hfind : urgency_keywords.find?
        (fun lk => lk.2.any (fun kw => strIn kw (pyLower s))) = none := by
      rw [List.find?_eq_none]
      intro cat hcat
      simp only [Bool.not_eq_true, List.any_eq_false]
      intro kw hkw
      simp [hnone cat hcat kw hkw]
    simp only [assess_symptoms, hfind, Option.map_none, Option.getD_none]
    decide
  · intro cat _ hfind
    simp [assess_symptoms, hfind]
  · intro hhigh hmed
    have h1 : (high_keywords.any (fun kw => strIn kw (pyLower s))) = false := by
      rw [List.any_eq_false]
      intro kw hkw
      simp [hhigh kw hkw]
    have h2 : (medium_keywords.any (fun kw => strIn kw (pyLower s))) = true := by
      rw [List.any_eq_true]
      exact hmed
    have hfind : urgency_keywords.find?
        (fun lk => lk.2.any (fun kw => strIn kw (pyLower s)))
        = some ("medium", medium_keywords) := by
      simp [urgency_keywords, List.find?_cons, h1, h2]
    simp only [assess_symptoms, hfind, Option.map_some, Option.getD_some]
    decide

/-- C3 witness: a string matching nothing defaults to tier 3, and a string
matching both a `medium` and a `low` keyword gets the `medium` tier 3. -/
theorem default_urgency_and_first_match_witness :
    (assess_symptoms "routine checkup request" none none none).assessment.urgency_level = 3
    ∧ (assess_symptoms "fever and mild rash" none none none).assessment.urgency_level = 3 := by
  have h1 := (default_urgency_and_first_match "routine checkup request"
    none none none).1 (by decide)
  have h2 := (default_urgency_and_first_match "fever and mild rash"
    none none none).2.2 (by decide) (by decide)
  exact ⟨h1, h2⟩

/-- C4: when the symptoms contain a configured red-flag phrase, the
workflow's triage step carries urgency 1, the run ends with status
`emergency_escalation`, and every later stage is absent from `steps`. -/
theorem emergency_escalation_early_exit (env : Env) (p : PatientData)
    (history : List WorkflowResult) (ms : MonitoringState)
    (h : ∃ flag ∈ red_flags_list, strIn flag (pyLower p.symptoms) = true) :
    ((run_full_workflow env p history ms).1.steps.triage.map
        TriageResult.urgency_level) = some (some 1)
    ∧ (run_full_workflow env p history ms).1.status = "emergency_escalation"
    ∧ (run_full_workflow env p history ms).1.steps.diagnosis = none
    ∧ (run_full_workflow env p history ms).1.steps.treatment = none
    ∧ (run_full_workflow env p history ms).1.steps.documentation = none
    ∧ (run_full_workflow env p history ms).1.steps.scheduling = none
    ∧ (run_full_workflow env p history ms).1.steps.followup = none := by
  have ht : (run_triage env p).urgency_level = some 1 := by
    rw [run_triage_urgency_eq, if_pos (has_red_flags_of_found p.symptoms h)]
  simp [run_full_workflow, ht, Steps.empty]

/-- C4 witness: the spec's scenario-A symptoms at a concrete patient. -/
theorem emergency_escalation_early_exit_witness :
    (∃ flag ∈ red_flags_list,
        strIn flag (pyLower chestPainPatient.symptoms) = true)
    ∧ (run_full_workflow demoEnv chestPainPatient [] ⟨[]⟩).1.status
        = "emergency_escalation"
    ∧ (run_full_workflow demoEnv chestPainPatient [] ⟨[]⟩).1.steps.followup = none := by
  have h := emergency_escalation_early_exit demoEnv chestPainPatient [] ⟨[]⟩ (by decide)
  exact ⟨by decide, h.2.1, h.2.2.2.2.2.2⟩

/-- C8: the monitoring check's adherence ratio is attended over total among
past appointments (1 on an empty denominator), a missed-appointments alert
fires exactly when there are past appointments and the ratio is below 4/5,
and its severity is urgent exactly when at least two were missed. -/
theorem adherence_alert_characterisation (m : Monitor) (now : Int) :
    ((assess_patient_status m now).appointment_adherence.total =
        (m.scheduled_appointments.filter (fun apt => decide (apt.datetime < now))).length)
    ∧ ((assess_patient_status m now).appointment_adherence.attended =
        ((m.scheduled_appointments.filter (fun apt => decide (apt.datetime < now))).filter
          (fun apt => apt.attended)).length)
    ∧ ((assess_patient_status m now).appointment_adherence.rate =
        (if 0 < (assess_patient_status m now).appointment_adherence.total then
          ((assess_patient_status m now).appointment_adherence.attended : ℚ) /
            ((assess_patient_status m now).appointment_adherence.total : ℚ)
        else 1))
    ∧ ((∃ a ∈ check_alert_conditions m (assess_patient_status m now),
          a.alert_type = "missed_appointments") ↔
        (0 < (assess_patient_status m now).appointment_adherence.total ∧
          (assess_patient_status m now).appointment_adherence.rate < 4/5))
    ∧ (∀ a ∈ check_alert_conditions m (assess_patient_status m now),
        a.alert_type = "missed_appointments" →
        a.severity =
          (if 2 ≤ (assess_patient_status m now).appointment_adherence.total -
                  (assess_patient_status m now).appointment_adherence.attended
           then "urgent" else "warning")) := by
  refine ⟨rfl, rfl, rfl, ?_, ?_⟩
  · constructor
    · intro hex
      obtain ⟨a, hmem, hty⟩ := hex
      simp only [check_alert_conditions] at hmem
      rcases List.mem_append.mp hmem with hm | hc
      · by_cases hcond : 0 < (assess_patient_status m now).appointment_adherence.total ∧
            (assess_patient_status m now).appointment_adherence.rate < 4/5
        · exact hcond
        · rw [if_neg hcond] at hm
          exact absurd hm (List.not_mem_nil a)
      · by_cases hdays : 14 < (assess_patient_status m now).days_since_contact
        · rw [if_pos hdays] at hc
          rcases List.mem_singleton.mp hc with rfl
          exact absurd (show ("no_contact" : String) = "missed_appointments" from hty)
            (by decide)
        · rw [if_neg hdays] at hc
          exact absurd hc (List.not_mem_nil a)
    · intro hcond
      have hmem : Alert.mk "missed_appointments"
          (if (assess_patient_status m now).appointment_adherence.total -
              (assess_patient_status m now).appointment_adherence.attended < 2
            then "warning" else "urgent")
          ("Patient has missed " ++
            toString ((assess_patient_status m now).appointment_adherence.total -
              (assess_patient_status m now).appointment_adherence.attended) ++
            " appointment(s)")
          ∈ check_alert_conditions m (assess_patient_status m now) := by
        simp only [check_alert_conditions]
        apply List.mem_append_left
        rw [if_pos hcond]
        exact List.mem_singleton_self _
      exact ⟨_, hmem, rfl⟩
  · intro a hmem hty
    simp only [check_alert_conditions] at hmem
    rcases List.mem_append.mp hmem with hm | hc
    · by_cases hcond : 0 < (assess_patient_status m now).appointment_adherence.total ∧
          (assess_patient_status m now).appointment_adherence.rate < 4/5
      · rw [if_pos hcond] at hm
        rcases List.mem_singleton.mp hm with rfl
        by_cases hlt : (assess_patient_status m now).appointment_adherence.total -
            (assess_patient_status m now).appointment_adherence.attended < 2
        · rw [if_pos hlt, if_neg (by omega)]
        · rw [if_neg hlt, if_pos (by omega)]
      · rw [if_neg hcond] at hm
        exact absurd hm (List.not_mem_nil a)
    · by_cases hdays : 14 < (assess_patient_status m now).days_since_contact
      · rw [if_pos hdays] at hc
        rcases List.mem_singleton.mp hc with rfl
        exact absurd (show ("no_contact" : String) = "missed_appointments" from hty)
          (by decide)
      · rw [if_neg hdays] at hc
        exact absurd hc (List.not_mem_nil a)

/-- C8 witness: one past missed appointment yields ratio 0, a fired
missed-appointments alert, and severity warning (only one missed). -/
theorem adherence_alert_characterisation_witness :
    (∃ a ∈ check_alert_conditions missedApptMonitor
        (assess_patient_status missedApptMonitor 0),
      a.alert_type = "missed_appointments")
    ∧ (∀ a ∈ check_alert_conditions missedApptMonitor
        (assess_patient_status missedApptMonitor 0),
        a.alert_type = "missed_appointments" → a.severity = "warning") := by
  have h := adherence_alert_characterisation missedApptMonitor 0
  constructor
  · apply h.2.2.2.1.mpr
    constructor
    · decide
    · rw [h.2.2.1]
      norm_num [assess_patient_status, missedApptMonitor]
  · intro a hmem hty
    have := h.2.2.2.2 a hmem hty
    rw [this]
    norm_num [assess_patient_status, missedApptMonitor]

/-- An `if` yielding `some` against `none` hits `some` exactly when its
condition holds and the payloads agree. -/
lemma ite_some_eq_some {α : Type} {c : Prop} [Decidable c] {x y : α} :
    (if c then some x else none) = some y ↔ c ∧ x = y := by
  by_cases h : c
  · simp [h]
  · simp [h]

/-- The exact shape of every warning `check_drug_interactions` emits. -/
lemma mem_interaction_warnings_iff (proposed current allergies : List String)
    (w : Warning) :
    w ∈ (check_drug_interactions proposed current allergies).warnings ↔
      ((∃ pr ∈ known_interactions,
          (strIn pr.1.1 (joined_meds proposed current) = true ∧
           strIn pr.1.2 (joined_meds proposed current) = true) ∧
          Warning.interaction [pr.1.1, pr.1.2] pr.2 "moderate" = w)
       ∨ (∃ med ∈ proposed, ∃ alg ∈ allergies,
          strIn (pyLower alg) (pyLower med) = true ∧
          Warning.allergy med alg "high" = w)) := by
  simp only [check_drug_interactions, List.mem_append, List.mem_filterMap,
    List.mem_flatMap, ite_some_eq_some, Bool.and_eq_true]

/-- C5: `safe_to_prescribe` is false exactly when a high-severity warning
exists; the high-severity warnings are exactly the allergy conflicts;
interaction-table warnings always carry severity moderate; every table pair
whose two names occur in the space-joined combined medication list yields
its moderate warning; and without any allergy conflict the safety flag
stays true. -/
theorem drug_interaction_policy (proposed current allergies : List String) :
    ((check_drug_interactions proposed current allergies).safe_to_prescribe = false ↔
      ∃ w ∈ (check_drug_interactions proposed current allergies).warnings,
        w.severity = "high")
    ∧ (∀ w ∈ (check_drug_interactions proposed current allergies).warnings,
        w.severity = "high" → ∃ med alg, w = Warning.allergy med alg "high")
    ∧ (∀ ds wt sv,
        Warning.interaction ds wt sv ∈
          (check_drug_interactions proposed current allergies).warnings →
        sv = "moderate")
    ∧ (∀ pr ∈ known_interactions,
        strIn pr.1.1 (joined_meds proposed current) = true →
        strIn pr.1.2 (joined_meds proposed current) = true →
        Warning.interaction [pr.1.1, pr.1.2] pr.2 "moderate" ∈
          (check_drug_interactions proposed current allergies).warnings)
    ∧ ((∀ med ∈ proposed, ∀ alg ∈ allergies,
          strIn (pyLower alg) (pyLower med) = false) →
        (check_drug_interactions proposed current allergies).safe_to_prescribe = true) := by
  have hsafe : (check_drug_interactions proposed current allergies).safe_to_prescribe
      = decide ((((check_drug_interactions proposed current allergies).warnings.filter
          (fun w => w.severity == "high")).length : Nat) = 0) := rfl
  refine ⟨?_, ?_, ?_, ?_, ?_⟩
  · rw [hsafe, decide_eq_false_iff_not]
    constructor
    · intro hne
      have hnil : ((check_drug_interactions proposed current allergies).warnings.filter
          (fun w => w.severity == "high")) ≠ [] := by
        intro hnil
        exact hne (by rw [hnil]; rfl)
      obtain ⟨w, hw⟩ := List.exists_mem_of_ne_nil _ hnil
      obtain ⟨hwmem, hwsev⟩ := List.mem_filter.mp hw
      exact ⟨w, hwmem, beq_iff_eq.mp hwsev⟩
    · rintro ⟨w, hwmem, hwsev⟩ hlen
      have hw : w ∈ ((check_drug_interactions proposed current allergies).warnings.filter
          (fun w => w.severity == "high")) :=
        List.mem_filter.mpr ⟨hwmem, beq_iff_eq.mpr hwsev⟩
      rw [List.length_eq_zero] at hlen
      rw [hlen] at hw
      exact List.not_mem_nil w hw
  · intro w hwmem hwsev
    rcases (mem_interaction_warnings_iff proposed current allergies w).mp hwmem with
      ⟨pr, _, _, heq⟩ | ⟨med, _, alg, _, _, heq⟩
    · rw [← heq] at hwsev
      exact absurd (show ("moderate" : String) = "high" from hwsev) (by decide)
    · exact ⟨med, alg, heq.symm⟩
  · intro ds wt sv hwmem
    rcases (mem_interaction_warnings_iff proposed current allergies _).mp hwmem with
      ⟨pr, _, _, heq⟩ | ⟨med, _, alg, _, _, heq⟩
    · injection heq.symm
    · exact absurd heq (by intro hcontra; cases hcontra)
  · intro pr hpr h1 h2
    exact (mem_interaction_warnings_iff proposed current allergies _).mpr
      (Or.inl ⟨pr, hpr, ⟨h1, h2⟩, rfl⟩)
  · intro hno
    have hnil : ((check_drug_interactions proposed current allergies).warnings.filter
        (fun w => w.severity == "high")) = [] := by
      rw [List.filter_eq_nil_iff]
      intro w hwmem
      rcases (mem_interaction_warnings_iff proposed current allergies w).mp hwmem with
        ⟨pr, _, _, heq⟩ | ⟨med, hmed, alg, halg, hin, heq⟩
      · rw [← heq]
        intro hcontra
        exact absurd (show ("moderate" : String) = "high" from beq_iff_eq.mp hcontra)
          (by decide)
      · rw [hno med hmed alg halg] at hin
        exact absurd hin (by decide)
    rw [hsafe, hnil]
    rfl

/-- C5 witness: warfarin among the proposed and aspirin among the current
medications produce the moderate interaction warning while the safety flag
stays true (no allergy conflict). -/
theorem drug_interaction_policy_witness :
    Warning.interaction ["warfarin", "aspirin"] "Increased bleeding risk" "moderate" ∈
      (check_drug_interactions ["Warfarin 5mg"] ["Aspirin 81mg"] []).warnings
    ∧ (check_drug_interactions ["Warfarin 5mg"] ["Aspirin 81mg"] []).safe_to_prescribe
        = true := by
  have h := drug_interaction_policy ["Warfarin 5mg"] ["Aspirin 81mg"] []
  refine ⟨?_, h.2.2.2.2 (by decide)⟩
  have hw := h.2.2.2.1 (("warfarin", "aspirin"), "Increased bleeding risk")
    (by decide) (by decide) (by decide)
  exact hw

/-- C1 counterexample: a run that ends in `emergency_escalation` is not
appended — starting from an empty history the history stays empty, refuting
"every invocation's record is appended regardless of terminal status". -/
theorem history_append_counterexample :
    (run_full_workflow demoEnv chestPainPatient [] ⟨[]⟩).1.status
      = "emergency_escalation"
    ∧ (run_full_workflow demoEnv chestPainPatient [] ⟨[]⟩).2.1 = [] := by
  exact ⟨by decide, by decide⟩

/-- C1 (amended): the history grows only by appending the run's own record,
and exactly the runs that reach the end of the function (status
`completed`, or `error` had a stage raised) are appended; the
`emergency_escalation` and `safety_review_required` early exits return
before the append and leave the history unchanged. -/
theorem workflow_history_append_policy (env : Env) (p : PatientData)
    (history : List WorkflowResult) (ms : MonitoringState) :
    ((run_full_workflow env p history ms).2.1 = history ∨
      (run_full_workflow env p history ms).2.1 =
        history ++ [(run_full_workflow env p history ms).1])
    ∧ ((run_full_workflow env p history ms).1.status = "completed" →
        (run_full_workflow env p history ms).2.1 =
          history ++ [(run_full_workflow env p history ms).1])
    ∧ (((run_full_workflow env p history ms).1.status = "emergency_escalation" ∨
        (run_full_workflow env p history ms).1.status = "safety_review_required") →
        (run_full_workflow env p history ms).2.1 = history) := by
  by_cases h1 : ((run_triage env p).urgency_level == some 1) = true
  · have hh : (run_full_workflow env p history ms).2.1 = history := by
      simp [run_full_workflow, h1]
    have hs : (run_full_workflow env p history ms).1.status
        = "emergency_escalation" := by
      simp [run_full_workflow, h1]
    rw [hh, hs]
    exact ⟨Or.inl rfl, fun hc => absurd hc (by decide), fun _ => rfl⟩
  · have h1f : ((run_triage env p).urgency_level == some 1) = false :=
      Bool.not_eq_true _ ▸ h1
    by_cases h2 : ((run_treatment env p).status == "safety_hold") = true
    · have hh : (run_full_workflow env p history ms).2.1 = history := by
        simp [run_full_workflow, h1f, h2]
      have hs : (run_full_workflow env p history ms).1.status
          = "safety_review_required" := by
        simp [run_full_workflow, h1f, h2]
      rw [hh, hs]
      exact ⟨Or.inl rfl, fun hc => absurd hc (by decide), fun _ => rfl⟩
    · have h2f : ((run_treatment env p).status == "safety_hold") = false :=
        Bool.not_eq_true _ ▸ h2
      have hh : (run_full_workflow env p history ms).2.1 =
          history ++ [(run_full_workflow env p history ms).1] := by
        simp [run_full_workflow, h1f, h2f]
      have hs : (run_full_workflow env p history ms).1.status = "completed" := by
        simp [run_full_workflow, h1f, h2f]
      rw [hh, hs]
      refine ⟨Or.inr rfl, fun _ => rfl, fun hc => ?_⟩
      rcases hc with hc | hc <;> exact absurd hc (by decide)

/-- C1 witness: the routine patient's run completes and is appended to the
(initially empty) history as its single element. -/
theorem workflow_history_append_policy_witness :
    (run_full_workflow demoEnv routinePatient [] ⟨[]⟩).1.status = "completed"
    ∧ (run_full_workflow demoEnv routinePatient [] ⟨[]⟩).2.1
        = [] ++ [(run_full_workflow demoEnv routinePatient [] ⟨[]⟩).1] := by
  have h := workflow_history_append_policy demoEnv routinePatient [] ⟨[]⟩
  exact ⟨by decide, h.2.1 (by decide)⟩

/-- C2 (the code against the claim): the demo patient carries a penicillin
allergy, yet the workflow completes with the treatment stage's safety gate
passed, because `_run_treatment` hands `run_safety_checks` a hard-coded
empty proposed-medication list; handing the gate the penicillin
prescription the claim speaks of does flip `passed` to false. -/
theorem safety_gate_never_blocks_in_workflow :
    (run_full_workflow demoEnv routinePatient [] ⟨[]⟩).1.status = "completed"
    ∧ ((run_full_workflow demoEnv routinePatient [] ⟨[]⟩).1.steps.treatment.map
        (fun t => t.safety_checks.passed)) = some true
    ∧ (run_full_workflow demoEnv routinePatient [] ⟨[]⟩).1.status
        ≠ "safety_review_required"
    ∧ (run_safety_checks ["Penicillin 500mg"]
        { allergies := ["Penicillin"], current_medications := ["Lisinopril 10mg daily"],
          age := 35, pregnant := false }).passed = false := by
  exact ⟨by decide, by decide, by decide, by decide⟩

end Clinical
